import Mathlib

/-!
Verification development for the DOPtools command-line interface
(`doptools/cli/main.py`).

The CLI orchestrates molecular-descriptor computation: it loads a tabular
file, selects and configures a descriptor transformer, runs the transformer
fit/transform contract, assembles an ID-prefixed feature table and writes it
as comma-separated text.  The descriptor collaborators themselves
(`ChythonCircus`, `Fingerprinter`, `ComplexFragmentor`, `ColorAtom` of
`doptools.chem`) are not part of the analysed sources; they are modelled here
from the specification of their fit/transform contract, with the opaque
chemistry (fragment enumeration, fingerprint hashing) taken as explicit
function parameters.

Tables are modelled column-major: a `DF` is an ordered list of named columns
plus an explicit row count (mirroring a pandas `DataFrame`, which keeps its
row count even with zero columns).  File input/output is modelled by passing
the loaded table in and returning the list of (path, content) writes out;
`click` echoes are collected in a list, and a `click.ClickException` is an
`err` result (non-zero exit, single message, no writes performed).
-/

set_option autoImplicit false

namespace DOPtools

/-- A single apostrophe character, used inside error messages such as the
missing-column message of the CLI. -/
def sq : String := Char.toString (Char.ofNat 39)

/-- First-seen-order deduplication, auxiliary recursion carrying the set of
names already emitted. -/
def dedupAux (seen : List String) : List String → List String
  | [] => []
  | x :: xs => if x ∈ seen then dedupAux seen xs else x :: dedupAux (x :: seen) xs

/-- First-seen-order deduplication of a list of fragment names, the
deterministic vocabulary order required of substructure fit. -/
def dedup (l : List String) : List String := dedupAux [] l

/-- A data frame: ordered named columns plus an explicit row count
(pandas keeps the row count even when a frame has no columns). -/
structure DF where
  cols : List (String × List String)
  nr : Nat
  deriving DecidableEq

/-- First-match lookup of a column by name in an ordered column list. -/
def colLookup (c : String) : List (String × List String) → List String
  | [] => []
  | p :: ps => if p.1 == c then p.2 else colLookup c ps

/-- `df[c].tolist()`: the values of column `c` (empty if absent). -/
def DF.col (df : DF) (c : String) : List String := colLookup c df.cols

/-- `df.columns`: the ordered column names. -/
def DF.columns (df : DF) : List String := df.cols.map Prod.fst

/-- Well-formedness: every column holds exactly `nr` values. -/
def DF.wf (df : DF) : Bool := df.cols.all (fun p => p.2.length == df.nr)

/-- `df.insert(0, "ID", ids)`: prepend an `ID` column. -/
def DF.insertID (df : DF) (ids : List String) : DF :=
  DF.mk (("ID", ids) :: df.cols) df.nr

/-- Rename every column of `df` by prefixing the source-column tag `t`
followed by a double underscore (composite-descriptor name spacing). -/
def DF.tagCols (df : DF) (t : String) : DF :=
  DF.mk (df.cols.map (fun p => (t ++ "__" ++ p.1, p.2))) df.nr

/-- `df.to_csv(path, index=False)`: comma-separated text, one header line of
column names followed by one line per row.  Cell values are assumed free of
separators (no quoting is modelled). -/
def DF.toCsv (df : DF) : String :=
  String.intercalate "\n"
    ((String.intercalate "," df.columns) ::
      (List.range df.nr).map
        (fun i => String.intercalate "," (df.cols.map (fun p => p.2.getD i ""))))

/-- Result of one CLI command invocation: either success with the performed
file writes (path, content) and the echoed progress lines, or a
`click.ClickException`, which prints a single message and exits non-zero
without having performed any write. -/
inductive CmdResult where
  | ok (writes : List (String × String)) (echoes : List String)
  | err (msg : String)
  deriving DecidableEq

/-- The file writes a command performed (none on failure). -/
def CmdResult.writes : CmdResult → List (String × String)
  | .ok w _ => w
  | .err _ => []

/-- Whether the command exited successfully (zero exit code). -/
def CmdResult.isOk : CmdResult → Bool
  | .ok _ _ => true
  | .err _ => false

/-- Orchestration events of one command invocation, in execution order:
table load, transformer fit (recording the structures fit on), transformer
transform, output write, and the attribution explain call. -/
inductive Ev where
  | load
  | fit (structures : List String)
  | transform
  | write
  | explain
  deriving DecidableEq

/-- Whether an event is a transformer fit. -/
def Ev.isFit : Ev → Bool
  | .fit _ => true
  | _ => false

/-- Whether an event is an attribution explain call. -/
def Ev.isExplain : Ev → Bool
  | .explain => true
  | _ => false

/-- The missing-structure-column message raised by the descriptor commands
(`Column <name> not found in input file`, the name in single quotes). -/
def missingColMsg (c : String) : String :=
  "Column " ++ sq ++ c ++ sq ++ " not found in input file"

/-- Modelled from the spec: the `UnfitTransformerError` message of a
substructure descriptor whose `transform` is called before `fit` (the
concrete `ChythonCircus` class is not among the analysed sources). -/
def circusUnfitMsg : String := "CircuS transformer used before fit"

/-- Modelled from the spec: `ChythonCircus` of `doptools.chem` (not among the
analysed sources), a substructure descriptor with radius bounds, bond/atom
centering and an optional learned vocabulary (`none` before `fit`). -/
structure ChythonCircus where
  lower : Nat
  upper : Nat
  on_bond : Bool
  fmt : String
  vocab : Option (List String)

/-- Modelled from the spec: substructure `fit` enumerates the fragments of
every structure (via the opaque enumerator `frag`, applied at the configured
radius bounds and centering) and records the distinct fragment names in
first-seen order as the vocabulary. -/
def ChythonCircus.fit (c : ChythonCircus) (frag : Nat → Nat → Bool → String → List String)
    (structures : List String) : ChythonCircus :=
  { c with vocab := some (dedup ((structures.map (frag c.lower c.upper c.on_bond)).flatten)) }

/-- Modelled from the spec: substructure `transform` emits one column per
vocabulary entry holding the per-structure occurrence count; it fails when
called before `fit`. -/
def ChythonCircus.transform (c : ChythonCircus) (frag : Nat → Nat → Bool → String → List String)
    (structures : List String) : Except String DF :=
  match c.vocab with
  | none => .error circusUnfitMsg
  | some v =>
      .ok (DF.mk
        (v.map (fun w =>
          (w, structures.map (fun s => toString ((frag c.lower c.upper c.on_bond s).count w)))))
        structures.length)

/-- Modelled from the spec: `Fingerprinter` of `doptools.chem` (not among the
analysed sources), a fixed-width fingerprint descriptor whose `fit` is a
no-op and whose feature width is exactly `nBits`. -/
structure Fingerprinter where
  fp_type : String
  nBits : Nat
  radius : Nat
  fmt : String

/-- Modelled from the spec: fingerprint `transform` computes a fixed-width
vector per structure via the opaque hashing scheme `fp` (already specialised
to the configured fingerprint type and radius); columns are the bit indices,
width exactly `nBits`, one row per structure. -/
def Fingerprinter.transform (fpr : Fingerprinter) (fp : String → Nat → Nat)
    (structures : List String) : DF :=
  DF.mk
    ((List.range fpr.nBits).map
      (fun j => (toString j, structures.map (fun s => toString (fp s j)))))
    structures.length

/-- Modelled from the spec: a declarative `TransformerSpec` of a composite
configuration, identifying which descriptor variant an inner transformer of a
`ComplexFragmentor` is (substructure or fingerprint) and its parameters. -/
inductive TransformerSpec where
  | circusSpec (lower upper : Nat) (on_bond : Bool)
  | fpSpec (fp_type : String) (nBits radius : Nat)
  deriving DecidableEq

/-- Modelled from the spec: running a freshly constructed inner transformer
of a composite on one column.  A substructure inner transformer has not been
fit (the `complex` command never calls `fit`), so its transform fails with
the unfit error; a fingerprint inner transformer is stateless and produces
its fixed-width table. -/
def TransformerSpec.run (fp : String → Nat → Nat) :
    TransformerSpec → List String → Except String DF
  | .circusSpec _ _ _, _ => .error circusUnfitMsg
  | .fpSpec t n r, vals => .ok (Fingerprinter.transform (Fingerprinter.mk t n r "smiles") fp vals)

/-- Modelled from the spec: `ComplexFragmentor` of `doptools.chem` (not among
the analysed sources), built from a configuration document: an ordered
`associator` of (column name, inner transformer spec) pairs, the declared
structure columns, and the structure notation. -/
structure ComplexFragmentor where
  associator : List (String × TransformerSpec)
  structure_columns : List String
  fmt : String

/-- Modelled from the spec: composite `transform` re-validates that every
associator column is present in the table (failing with the missing-column
error naming the first absent column), then transforms each declared column
independently with its inner transformer and concatenates the per-column
feature tables horizontally, feature names prefixed by their source column. -/
def ComplexFragmentor.transform (cf : ComplexFragmentor) (fp : String → Nat → Nat)
    (df : DF) : Except String DF :=
  match cf.associator.find? (fun p => !(decide (p.1 ∈ df.columns))) with
  | some p => .error (missingColMsg p.1)
  | none => do
      let parts ← cf.associator.mapM
        (fun p => (p.2.run fp (df.col p.1)).map (fun d => d.tagCols p.1))
      .ok (DF.mk (parts.map DF.cols).flatten df.nr)

/-- The error wrapper of the `circus` command boundary. -/
def circusWrap (m : String) : String := "Error calculating CircuS descriptors: " ++ m

/-- The error wrapper of the `rdkit` command boundary. -/
def rdkitWrap (m : String) : String := "Error calculating RDKit descriptors: " ++ m

/-- The error wrapper of the `complex` command boundary. -/
def complexWrap (m : String) : String := "Error calculating complex descriptors: " ++ m

/-- The feature table the `circus` command computes from the structure
column: fit then transform of a `ChythonCircus` on the same structure list
(the fit-then-transform composition, which cannot hit the unfit error). -/
def circusFeatures (frag : Nat → Nat → Bool → String → List String)
    (lower upper : Nat) (on_bond : Bool) (smiles_data : List String) : DF :=
  DF.mk
    ((dedup ((smiles_data.map (frag lower upper on_bond)).flatten)).map
      (fun w =>
        (w, smiles_data.map (fun s => toString ((frag lower upper on_bond s).count w)))))
    smiles_data.length

/-- The table the `circus` command writes: the feature table with the `ID`
column prepended, taken from the input table when the configured ID column is
present and synthesised as `0..N-1` otherwise. -/
def circusOutDF (frag : Nat → Nat → Bool → String → List String)
    (smiles_column id_column : String) (lower upper : Nat) (on_bond : Bool)
    (df : DF) : DF :=
  let d := circusFeatures frag lower upper on_bond (df.col smiles_column)
  let ids := if id_column ∈ df.columns then df.col id_column
             else (List.range d.nr).map toString
  d.insertID ids

/-- The `descriptors circus` command (`main.py`, `circus`): given the table
loaded from the input file, checks the structure column, fits and transforms
a `ChythonCircus`, prepends the `ID` column and writes the comma-separated
result; any error is wrapped once at the command boundary. -/
def circusCmd (frag : Nat → Nat → Bool → String → List String)
    (input_file output_file smiles_column id_column : String)
    (lower upper : Nat) (on_bond verbose : Bool) (df : DF) :
    CmdResult × List Ev :=
  let e1 := if verbose then ["Loading data from " ++ input_file ++ "..."] else []
  if smiles_column ∈ df.columns then
    let e2 := if verbose then
        ["Loaded " ++ toString df.nr ++ " molecules",
         "Calculating CircuS descriptors (radius " ++ toString lower ++ "-"
           ++ toString upper ++ ")..."]
      else []
    let circus_calc : ChythonCircus := ChythonCircus.mk lower upper on_bond "smiles" none
    let smiles_data := df.col smiles_column
    let fitted := circus_calc.fit frag smiles_data
    match fitted.transform frag smiles_data with
    | .error m => (.err (circusWrap m), [Ev.load, Ev.fit smiles_data])
    | .ok d =>
        let ids := if id_column ∈ df.columns then df.col id_column
                   else (List.range d.nr).map toString
        let out := d.insertID ids
        let e3 := if verbose then
            ["Calculated " ++ toString (out.cols.length - 1) ++ " descriptors",
             "Results saved to " ++ output_file]
          else []
        (.ok [(output_file, out.toCsv)] (e1 ++ e2 ++ e3),
         [Ev.load, Ev.fit smiles_data, Ev.transform, Ev.write])
  else
    (.err (circusWrap (missingColMsg smiles_column)), [Ev.load])

/-- The table the `rdkit` command writes: the fingerprint table with the `ID`
column prepended, taken from the input table when the configured ID column is
present and synthesised as `0..N-1` otherwise. -/
def rdkitOutDF (fp : String → Nat → Nat) (smiles_column id_column fp_type : String)
    (nbits radius : Nat) (df : DF) : DF :=
  let d := Fingerprinter.transform (Fingerprinter.mk fp_type nbits radius "smiles") fp
    (df.col smiles_column)
  let ids := if id_column ∈ df.columns then df.col id_column
             else (List.range d.nr).map toString
  d.insertID ids

/-- The `descriptors rdkit` command (`main.py`, `rdkit`): given the table
loaded from the input file, checks the structure column, transforms a
`Fingerprinter` (no fit call is made), prepends the `ID` column and writes
the comma-separated result; any error is wrapped once at the command
boundary. -/
def rdkitCmd (fp : String → Nat → Nat)
    (input_file output_file smiles_column id_column fp_type : String)
    (nbits radius : Nat) (verbose : Bool) (df : DF) :
    CmdResult × List Ev :=
  let e1 := if verbose then ["Loading data from " ++ input_file ++ "..."] else []
  if smiles_column ∈ df.columns then
    let e2 := if verbose then
        ["Loaded " ++ toString df.nr ++ " molecules",
         "Calculating " ++ fp_type ++ " descriptors..."]
      else []
    let fingerprinter : Fingerprinter := Fingerprinter.mk fp_type nbits radius "smiles"
    let smiles_data := df.col smiles_column
    let d := fingerprinter.transform fp smiles_data
    let ids := if id_column ∈ df.columns then df.col id_column
               else (List.range d.nr).map toString
    let out := d.insertID ids
    let e3 := if verbose then
        ["Calculated " ++ toString (out.cols.length - 1) ++ " descriptors",
         "Results saved to " ++ output_file]
      else []
    (.ok [(output_file, out.toCsv)] (e1 ++ e2 ++ e3),
     [Ev.load, Ev.transform, Ev.write])
  else
    (.err (rdkitWrap (missingColMsg smiles_column)), [Ev.load])

/-- The `descriptors complex` command (`main.py`, `complex`): given the
parsed configuration (as a constructed `ComplexFragmentor`) and the table
loaded from the input file, transforms the whole table (no fit call is made)
and writes the comma-separated result directly — no `ID` column is inserted;
any error is wrapped once at the command boundary. -/
def complexCmd (fp : String → Nat → Nat) (cf : ComplexFragmentor)
    (config_file input_file output_file : String) (verbose : Bool) (df : DF) :
    CmdResult × List Ev :=
  let e1 := if verbose then
      ["Loading configuration from " ++ config_file ++ "...",
       "Loading data from " ++ input_file ++ "...",
       "Loaded " ++ toString df.nr ++ " rows",
       "Setting up ComplexFragmentor..."]
    else []
  match cf.transform fp df with
  | .error m => (.err (complexWrap m), [Ev.load])
  | .ok d =>
      let e2 := if verbose then
          ["Calculated " ++ toString d.cols.length ++ " total descriptors",
           "Results saved to " ++ output_file]
        else []
      (.ok [(output_file, d.toCsv)] (e1 ++ e2), [Ev.load, Ev.transform, Ev.write])

/-- The error wrapper of the `coloratom` command boundary. -/
def colorWrap (m : String) : String := "Error creating ColorAtom visualization: " ++ m

/-- The `analysis coloratom` command (`main.py`, `coloratom`): unpickles the
model (`pickleRes` is the outcome of `pickle.load` on the model file),
constructs the descriptor for the chosen type — fitting it on the
single-element list of the given structure only in the `circus` branch —
then calls the `ColorAtom` explain (`explainRes` is its outcome: the
rendered figure content on success; per the spec it internally fits the
transformer on the one structure), and optionally saves the figure
(`saveRes` is the outcome of `savefig`, taken as atomic: a failing save
writes nothing).  `fig.show` is an opaque display side effect.  Every raised
error is wrapped once at the command boundary. -/
def coloratomCmd (pickleRes : Except String Unit) (explainRes : Except String String)
    (saveRes : Except String Unit)
    (model_file smiles descriptor_type : String)
    (output_file : Option String) (show_flag : Bool) :
    CmdResult × List Ev :=
  match pickleRes with
  | .error e => (.err (colorWrap e), [])
  | .ok _ =>
    let e1 := ["Analyzing SMILES: " ++ smiles]
    let preEvs :=
      if descriptor_type = "circus" then [Ev.load, Ev.fit [smiles]]
      else [Ev.load]
    match explainRes with
    | .error e => (.err (colorWrap e), preEvs ++ [Ev.explain])
    | .ok fig =>
        match output_file with
        | some f =>
            match saveRes with
            | .error e => (.err (colorWrap e), preEvs ++ [Ev.explain])
            | .ok _ =>
                let _ := show_flag
                let _ := model_file
                (.ok [(f, fig)] (e1 ++ ["Visualization saved to " ++ f]),
                 preEvs ++ [Ev.explain, Ev.write])
        | none =>
            (.ok [] e1, preEvs ++ [Ev.explain])

/-- The `models optimize` command (`main.py`, `optimize`): saves `sys.argv`,
replaces it by the delegated optimizer argument vector (appending the verbose
flag to that fresh vector when requested), echoes the placeholder message and
restores the saved `sys.argv` before returning.  The second component is the
value of `sys.argv` when the command returns. -/
def optimizeCmd (config_file : String) (verbose : Bool) (argv0 : List String) :
    CmdResult × List String :=
  let original_argv := argv0
  let argv1 := ["launch_optimizer", "--config", config_file]
  let argv2 := if verbose then argv1 ++ ["--verbose"] else argv1
  let _ := argv2
  (.ok [] ["Optimization functionality to be implemented"], original_argv)

/-- The `models rebuild` command (`main.py`, `rebuild`): same argv
save/replace/restore pattern as `optimize`, delegating to the rebuilder
argument vector. -/
def rebuildCmd (input_dir output_dir : String) (verbose : Bool) (argv0 : List String) :
    CmdResult × List String :=
  let original_argv := argv0
  let argv1 := ["rebuilder", "--input", input_dir, "--output", output_dir]
  let argv2 := if verbose then argv1 ++ ["--verbose"] else argv1
  let _ := argv2
  (.ok [] ["Model rebuilding functionality to be implemented"], original_argv)

/-- The `analysis plot` command (`main.py`, `plot`): saves `sys.argv`, builds
the delegated plotter argument vector from the optional options, installs it,
echoes the placeholder message and restores the saved `sys.argv` before
returning. -/
def plotCmd (input_file plot_type : String)
    (x_column y_column output_file : Option String) (show_flag : Bool)
    (argv0 : List String) : CmdResult × List String :=
  let original_argv := argv0
  let args0 := ["plotter", "--input", input_file, "--type", plot_type]
  let args1 := match x_column with
    | some x => args0 ++ ["--x-column", x]
    | none => args0
  let args2 := match y_column with
    | some y => args1 ++ ["--y-column", y]
    | none => args1
  let args3 := match output_file with
    | some f => args2 ++ ["--output", f]
    | none => args2
  let args4 := if show_flag then args3 ++ ["--show"] else args3
  let _ := args4
  (.ok [] ["Plotting functionality to be implemented"], original_argv)

/-- A JSON value, as written by the `init` command. -/
inductive JVal where
  | str (s : String)
  | num (n : Int)
  | bool (b : Bool)
  | arr (xs : List JVal)
  | obj (fields : List (String × JVal))

/-- First-match lookup of a key in a JSON object field list. -/
def jLookup (k : String) : List (String × JVal) → Option JVal
  | [] => none
  | p :: ps => if p.1 == k then some p.2 else jLookup k ps

/-- Lookup of a top-level key of a JSON object (none on non-objects). -/
def JVal.objGet : JVal → String → Option JVal
  | .obj fs, k => jLookup k fs
  | _, _ => none

/-- A double-quote character, for JSON serialization. -/
def dq : String := Char.toString (Char.ofNat 34)

mutual

/-- Serialization of a JSON value (compact; the `indent=2` pretty-printing of
`json.dump` is not modelled, whitespace being irrelevant to document
content). -/
def JVal.dump : JVal → String
  | .str s => dq ++ s ++ dq
  | .num n => toString n
  | .bool b => if b then "true" else "false"
  | .arr xs => "[" ++ JVal.dumpList xs ++ "]"
  | .obj fs => "\x7b" ++ JVal.dumpFields fs ++ "\x7d"

/-- Serialization of a JSON array body. -/
def JVal.dumpList : List JVal → String
  | [] => ""
  | [x] => JVal.dump x
  | x :: y :: xs => JVal.dump x ++ ", " ++ JVal.dumpList (y :: xs)

/-- Serialization of a JSON object body. -/
def JVal.dumpFields : List (String × JVal) → String
  | [] => ""
  | [p] => dq ++ p.1 ++ dq ++ ": " ++ JVal.dump p.2
  | p :: q :: fs => dq ++ p.1 ++ dq ++ ": " ++ JVal.dump p.2 ++ ", " ++ JVal.dumpFields (q :: fs)

end

/-- The configuration document the `init` command writes for descriptor type
`circus` (`main.py`, `init`). -/
def initCircusConfig : JVal :=
  .obj [("name", .str "CircuS Descriptors"),
        ("description", .str "Basic CircuS molecular descriptors"),
        ("descriptor", .obj [("type", .str "circus"), ("lower", .num 0),
                             ("upper", .num 3), ("on_bond", .bool false),
                             ("fmt", .str "smiles")])]

/-- The configuration document the `init` command writes for descriptor type
`rdkit` (`main.py`, `init`). -/
def initRdkitConfig : JVal :=
  .obj [("name", .str "RDKit Descriptors"),
        ("description", .str "RDKit molecular fingerprints"),
        ("descriptor", .obj [("type", .str "rdkit"), ("fp_type", .str "morgan"),
                             ("nBits", .num 1024), ("radius", .num 2),
                             ("fmt", .str "smiles")])]

/-- The configuration document the `init` command writes for descriptor type
`complex` (`main.py`, `init`): the `associator` pair list, the structure
columns and the structure notation. -/
def initComplexConfig : JVal :=
  .obj [("name", .str "Complex Multi-Column Descriptors"),
        ("description", .str "ComplexFragmentor for multiple molecular columns"),
        ("associator", .arr [.arr [.str "molecules",
          .obj [("type", .str "circus"), ("lower", .num 0), ("upper", .num 2)]]]),
        ("structure_columns", .arr [.str "molecules"]),
        ("fmt", .str "smiles")]

/-- The error wrapper of the `init` command boundary. -/
def initWrap (m : String) : String := "Error creating configuration: " ++ m

/-- The `init` command (`main.py`, `init`): selects the configuration
document for the chosen descriptor type, writes its JSON serialization to
the output file and echoes the two confirmation lines.  An unknown type
(impossible through the CLI choice gate) leaves the document unbound and
fails at the command boundary with the wrapped name error. -/
def initCmd (descriptor_type output_file : String) : CmdResult :=
  let cfg : Option JVal :=
    if descriptor_type = "circus" then some initCircusConfig
    else if descriptor_type = "rdkit" then some initRdkitConfig
    else if descriptor_type = "complex" then some initComplexConfig
    else none
  match cfg with
  | some config =>
      .ok [(output_file, config.dump)]
        ["Configuration file created: " ++ output_file,
         "Edit this file to customize your " ++ descriptor_type ++ " setup"]
  | none =>
      .err (initWrap ("name " ++ sq ++ "config" ++ sq ++ " is not defined"))

/-- The error wrapper of the `info` command boundary. -/
def infoWrap (m : String) : String := "Error getting system info: " ++ m

/-- The `info` command (`main.py`, `info`): gathers and echoes version and
platform information.  The gathering queries the environment (module imports
and version attributes) and may fail; `sysinfo` is its outcome, the echoed
lines on success.  A failure is wrapped once at the command boundary; the
command never writes a file. -/
def infoCmd (sysinfo : Except String (List String)) : CmdResult :=
  match sysinfo with
  | .ok ls => .ok [] ls
  | .error e => .err (infoWrap e)

/-- Whether a JSON value is an ordered list of [column-name, spec] pairs:
an array whose every element is a two-element array of a string followed by
an object. -/
def isPairList : JVal → Bool
  | .arr xs => xs.all (fun x => match x with
      | .arr [.str _, .obj _] => true
      | _ => false)
  | _ => false

/-- Whether a JSON value is an array of strings. -/
def isStrList : JVal → Bool
  | .arr xs => xs.all (fun x => match x with
      | .str _ => true
      | _ => false)
  | _ => false

/-- The `associator` value of the `init` complex configuration document. -/
def initComplexAssociator : JVal :=
  .arr [.arr [.str "molecules",
    .obj [("type", .str "circus"), ("lower", .num 0), ("upper", .num 2)]]]

/-- The `structure_columns` value of the `init` complex configuration
document. -/
def initComplexStructCols : JVal := .arr [.str "molecules"]

/-- A concrete fragment enumerator for evaluation: each structure is its own
single fragment. -/
def frag0 : Nat → Nat → Bool → String → List String := fun _ _ _ s => [s]

/-- A concrete fingerprint hashing scheme for evaluation: all bits zero. -/
def fp0 : String → Nat → Nat := fun _ _ => 0

/-- A concrete two-row input table with `ID` and `SMILES` columns. -/
def dfW : DF := DF.mk [("ID", ["m1", "m2"]), ("SMILES", ["CCO", "CCC"])] 2

/-- A concrete two-row input table with a `SMILES` column and no ID column. -/
def dfNoId : DF := DF.mk [("SMILES", ["CCO", "CCC"])] 2

/-- A concrete one-row input table with a `molecules` column. -/
def dfMol : DF := DF.mk [("molecules", ["CCO"])] 1

/-- A concrete composite configuration with one fingerprint inner
transformer over the `molecules` column. -/
def cfW : ComplexFragmentor :=
  ComplexFragmentor.mk [("molecules", TransformerSpec.fpSpec "morgan" 1 2)] ["molecules"] "smiles"

/-- A concrete composite configuration whose single associator column
`solvent` is meant to be absent from the table it is applied to. -/
def cfMissing : ComplexFragmentor :=
  ComplexFragmentor.mk [("solvent", TransformerSpec.fpSpec "morgan" 1 2)] ["solvent"] "smiles"

/-- Whether an event is a transformer transform call. -/
def Ev.isTransform : Ev → Bool
  | .transform => true
  | _ => false

/-- A string `sub` occurs inside `s` (with explicit context witnesses). -/
def containsStr (s sub : String) : Prop := ∃ p q, s = p ++ (sub ++ q)

theorem colLookup_length (c : String) (n : Nat) :
    ∀ l : List (String × List String),
      l.all (fun p => p.2.length == n) = true →
      c ∈ l.map Prod.fst →
      (colLookup c l).length = n := by
  intro l
  induction l with
  | nil => intro _ hc; simp at hc
  | cons p ps ih =>
      intro hall hc
      simp only [List.all_cons, Bool.and_eq_true, beq_iff_eq] at hall
      by_cases hp : p.1 = c
      · simpa [colLookup, hp] using hall.1
      · have hc' : c ∈ ps.map Prod.fst := by
          rw [List.map_cons] at hc
          rcases (List.mem_cons).1 hc with h | h
          · exact absurd h.symm hp
          · exact h
        simpa [colLookup, hp] using ih hall.2 hc'

theorem DF.col_length (df : DF) (c : String)
    (hwf : df.wf = true) (hc : c ∈ df.columns) :
    (df.col c).length = df.nr :=
  colLookup_length c df.nr df.cols hwf hc

theorem fit_transform_eq (frag : Nat → Nat → Bool → String → List String)
    (lower upper : Nat) (on_bond : Bool) (sd : List String) :
    ((ChythonCircus.mk lower upper on_bond "smiles" none).fit frag sd).transform frag sd
      = .ok (circusFeatures frag lower upper on_bond sd) := rfl

/-- C8: every run of `init` with descriptor type `complex` writes the JSON
configuration document whose key `associator` maps to the ordered list of
[column-name, transformer-spec] pairs, whose key `structure_columns` maps to
a list of column names, and whose key `fmt` maps to a structure-notation
string. -/
theorem init_complex_config_keys (output_file : String) :
    initCmd "complex" output_file =
      CmdResult.ok [(output_file, initComplexConfig.dump)]
        ["Configuration file created: " ++ output_file,
         "Edit this file to customize your " ++ "complex" ++ " setup"] ∧
    initComplexConfig.objGet "associator" = some initComplexAssociator ∧
    isPairList initComplexAssociator = true ∧
    initComplexConfig.objGet "structure_columns" = some initComplexStructCols ∧
    isStrList initComplexStructCols = true ∧
    initComplexConfig.objGet "fmt" = some (JVal.str "smiles") := by
  refine ⟨?_, rfl, rfl, rfl, rfl, rfl⟩
  simp [initCmd]

/-- C9: the `models optimize`, `models rebuild` and `analysis plot` commands
complete without an exception and restore `sys.argv` to exactly its entry
value before returning — the temporary argv mutation is invisible to the
caller. -/
theorem argv_restored_on_success
    (config_file input_dir output_dir input_file plot_type : String)
    (x_column y_column output_file : Option String)
    (verbose show_flag : Bool) (argv0 : List String) :
    ((optimizeCmd config_file verbose argv0).1.isOk = true ∧
      (optimizeCmd config_file verbose argv0).2 = argv0) ∧
    ((rebuildCmd input_dir output_dir verbose argv0).1.isOk = true ∧
      (rebuildCmd input_dir output_dir verbose argv0).2 = argv0) ∧
    ((plotCmd input_file plot_type x_column y_column output_file show_flag argv0).1.isOk
        = true ∧
      (plotCmd input_file plot_type x_column y_column output_file show_flag argv0).2
        = argv0) :=
  ⟨⟨rfl, rfl⟩, ⟨rfl, rfl⟩, ⟨rfl, rfl⟩⟩

/-- C10: two `descriptors circus` runs on the same loaded table with
identical options except the `--verbose` flag write identical output file
content — the verbose flag only influences echoed progress narration. -/
theorem circus_verbose_noninterference
    (frag : Nat → Nat → Bool → String → List String)
    (input_file output_file smiles_column id_column : String)
    (lower upper : Nat) (on_bond : Bool) (df : DF) (v1 v2 : Bool) :
    ((circusCmd frag input_file output_file smiles_column id_column
        lower upper on_bond v1 df).1).writes =
      ((circusCmd frag input_file output_file smiles_column id_column
        lower upper on_bond v2 df).1).writes := by
  by_cases hs : smiles_column ∈ df.columns
  · simp [circusCmd, hs, ChythonCircus.fit, ChythonCircus.transform, CmdResult.writes]
  · simp [circusCmd, hs, CmdResult.writes]

/-- C1: for every well-formed input table whose structure and ID columns are
present, the `descriptors circus` command writes a table with exactly as many
feature rows as the input has rows, whose first column is named `ID` and
holds the input ID-column values in original row order. -/
theorem circus_assembles_ids
    (frag : Nat → Nat → Bool → String → List String)
    (input_file output_file smiles_column id_column : String)
    (lower upper : Nat) (on_bond verbose : Bool) (df : DF)
    (hwf : df.wf = true) (hs : smiles_column ∈ df.columns)
    (hid : id_column ∈ df.columns) :
    (circusCmd frag input_file output_file smiles_column id_column
        lower upper on_bond verbose df).1.isOk = true ∧
    (circusCmd frag input_file output_file smiles_column id_column
        lower upper on_bond verbose df).1.writes
      = [(output_file,
          (circusOutDF frag smiles_column id_column lower upper on_bond df).toCsv)] ∧
    (circusOutDF frag smiles_column id_column lower upper on_bond df).nr = df.nr ∧
    (circusOutDF frag smiles_column id_column lower upper on_bond df).columns.head?
      = some "ID" ∧
    (circusOutDF frag smiles_column id_column lower upper on_bond df).col "ID"
      = df.col id_column := by
  refine ⟨?_, ?_, ?_, ?_, ?_⟩
  · simp [circusCmd, hs, ChythonCircus.fit, ChythonCircus.transform, CmdResult.isOk]
  · simp [circusCmd, hs, ChythonCircus.fit, ChythonCircus.transform, CmdResult.writes,
      circusOutDF, circusFeatures]
  · simp only [circusOutDF, circusFeatures, DF.insertID]
    exact DF.col_length df smiles_column hwf hs
  · rfl
  · simp [circusOutDF, DF.col, colLookup, DF.insertID, hid]

/-- Evaluation of `circus_assembles_ids` at a concrete two-row table with
`ID` and `SMILES` columns present. -/
theorem circus_assembles_ids_witness :
    dfW.wf = true ∧ "SMILES" ∈ dfW.columns ∧ "ID" ∈ dfW.columns ∧
    ((circusCmd frag0 "in.tsv" "out.csv" "SMILES" "ID" 0 3 false false dfW).1.isOk
        = true ∧
    (circusCmd frag0 "in.tsv" "out.csv" "SMILES" "ID" 0 3 false false dfW).1.writes
      = [("out.csv", (circusOutDF frag0 "SMILES" "ID" 0 3 false dfW).toCsv)] ∧
    (circusOutDF frag0 "SMILES" "ID" 0 3 false dfW).nr = dfW.nr ∧
    (circusOutDF frag0 "SMILES" "ID" 0 3 false dfW).columns.head? = some "ID" ∧
    (circusOutDF frag0 "SMILES" "ID" 0 3 false dfW).col "ID" = dfW.col "ID") :=
  ⟨by decide, by decide, by decide,
   circus_assembles_ids frag0 "in.tsv" "out.csv" "SMILES" "ID" 0 3 false false dfW
     (by decide) (by decide) (by decide)⟩

/-- C5: on a well-formed input table whose ID column is absent (structure
column present), the `circus` and `rdkit` commands still succeed and the
output `ID` column is the synthetic sequence `0..N-1`, `N` being the number
of feature rows, which equals the number of input rows. -/
theorem missing_id_column_synthetic
    (frag : Nat → Nat → Bool → String → List String) (fp : String → Nat → Nat)
    (input_file output_file smiles_column id_column fp_type : String)
    (lower upper nbits radius : Nat) (on_bond verbose : Bool) (df : DF)
    (hwf : df.wf = true) (hs : smiles_column ∈ df.columns)
    (hnid : id_column ∉ df.columns) :
    ((circusCmd frag input_file output_file smiles_column id_column
        lower upper on_bond verbose df).1.isOk = true ∧
      (circusCmd frag input_file output_file smiles_column id_column
        lower upper on_bond verbose df).1.writes
        = [(output_file,
            (circusOutDF frag smiles_column id_column lower upper on_bond df).toCsv)] ∧
      (circusOutDF frag smiles_column id_column lower upper on_bond df).col "ID"
        = (List.range df.nr).map toString ∧
      (circusOutDF frag smiles_column id_column lower upper on_bond df).nr = df.nr) ∧
    ((rdkitCmd fp input_file output_file smiles_column id_column fp_type
        nbits radius verbose df).1.isOk = true ∧
      (rdkitCmd fp input_file output_file smiles_column id_column fp_type
        nbits radius verbose df).1.writes
        = [(output_file,
            (rdkitOutDF fp smiles_column id_column fp_type nbits radius df).toCsv)] ∧
      (rdkitOutDF fp smiles_column id_column fp_type nbits radius df).col "ID"
        = (List.range df.nr).map toString ∧
      (rdkitOutDF fp smiles_column id_column fp_type nbits radius df).nr = df.nr) := by
  have hlen : (df.col smiles_column).length = df.nr := DF.col_length df smiles_column hwf hs
  have hlen' : (colLookup smiles_column df.cols).length = df.nr := hlen
  constructor
  · refine ⟨?_, ?_, ?_, ?_⟩
    · simp [circusCmd, hs, ChythonCircus.fit, ChythonCircus.transform, CmdResult.isOk]
    · simp [circusCmd, hs, ChythonCircus.fit, ChythonCircus.transform, CmdResult.writes,
        circusOutDF, circusFeatures]
    · simp [circusOutDF, circusFeatures, DF.col, colLookup, DF.insertID, hnid, hlen, hlen']
    · simp only [circusOutDF, circusFeatures, DF.insertID]
      exact hlen
  · refine ⟨?_, ?_, ?_, ?_⟩
    · simp [rdkitCmd, hs, CmdResult.isOk]
    · simp [rdkitCmd, hs, CmdResult.writes, rdkitOutDF]
    · simp [rdkitOutDF, Fingerprinter.transform, DF.col, colLookup, DF.insertID, hnid,
        hlen, hlen']
    · simp only [rdkitOutDF, Fingerprinter.transform, DF.insertID]
      exact hlen

/-- Evaluation of `missing_id_column_synthetic` at a concrete two-row table
lacking an `ID` column. -/
theorem missing_id_column_synthetic_witness :
    dfNoId.wf = true ∧ "SMILES" ∈ dfNoId.columns ∧ "ID" ∉ dfNoId.columns ∧
    ((circusOutDF frag0 "SMILES" "ID" 0 3 false dfNoId).col "ID"
        = (List.range dfNoId.nr).map toString ∧
      (rdkitOutDF fp0 "SMILES" "ID" "morgan" 2 2 dfNoId).col "ID"
        = (List.range dfNoId.nr).map toString) :=
  ⟨by decide, by decide, by decide,
   ((missing_id_column_synthetic frag0 fp0 "in.tsv" "out.csv" "SMILES" "ID" "morgan"
      0 3 2 2 false false dfNoId (by decide) (by decide) (by decide)).1.2.2.1),
   ((missing_id_column_synthetic frag0 fp0 "in.tsv" "out.csv" "SMILES" "ID" "morgan"
      0 3 2 2 false false dfNoId (by decide) (by decide) (by decide)).2.2.2.1)⟩

theorem missingColMsg_contains (pre c : String) :
    containsStr (pre ++ missingColMsg c) c :=
  ⟨pre ++ ("Column " ++ sq), sq ++ " not found in input file",
   by simp [missingColMsg, String.append_assoc]⟩

/-- C2: a descriptor command (`circus`, `rdkit` or `complex`) whose
configured structure column is absent from the loaded table fails with a
single error message containing the configured column name, exits non-zero,
and performs no output write. -/
theorem missing_column_errors :
    (∀ (frag : Nat → Nat → Bool → String → List String)
        (input_file output_file smiles_column id_column : String)
        (lower upper : Nat) (on_bond verbose : Bool) (df : DF),
      smiles_column ∉ df.columns →
      (circusCmd frag input_file output_file smiles_column id_column
          lower upper on_bond verbose df).1
        = CmdResult.err (circusWrap (missingColMsg smiles_column)) ∧
      containsStr (circusWrap (missingColMsg smiles_column)) smiles_column ∧
      (circusCmd frag input_file output_file smiles_column id_column
          lower upper on_bond verbose df).1.writes = []) ∧
    (∀ (fp : String → Nat → Nat)
        (input_file output_file smiles_column id_column fp_type : String)
        (nbits radius : Nat) (verbose : Bool) (df : DF),
      smiles_column ∉ df.columns →
      (rdkitCmd fp input_file output_file smiles_column id_column fp_type
          nbits radius verbose df).1
        = CmdResult.err (rdkitWrap (missingColMsg smiles_column)) ∧
      containsStr (rdkitWrap (missingColMsg smiles_column)) smiles_column ∧
      (rdkitCmd fp input_file output_file smiles_column id_column fp_type
          nbits radius verbose df).1.writes = []) ∧
    (∀ (fp : String → Nat → Nat) (cf : ComplexFragmentor)
        (config_file input_file output_file : String) (verbose : Bool) (df : DF),
      (∃ p ∈ cf.associator, p.1 ∉ df.columns) →
      ∃ m c, (complexCmd fp cf config_file input_file output_file verbose df).1
          = CmdResult.err m ∧
        c ∈ cf.associator.map Prod.fst ∧ c ∉ df.columns ∧ containsStr m c ∧
        (complexCmd fp cf config_file input_file output_file verbose df).1.writes
          = []) := by
  refine ⟨?_, ?_, ?_⟩
  · intro frag input_file output_file smiles_column id_column lower upper on_bond
      verbose df h
    refine ⟨by simp [circusCmd, h], ?_, by simp [circusCmd, h, CmdResult.writes]⟩
    exact missingColMsg_contains "Error calculating CircuS descriptors: " smiles_column
  · intro fp input_file output_file smiles_column id_column fp_type nbits radius
      verbose df h
    refine ⟨by simp [rdkitCmd, h], ?_, by simp [rdkitCmd, h, CmdResult.writes]⟩
    exact missingColMsg_contains "Error calculating RDKit descriptors: " smiles_column
  · intro fp cf config_file input_file output_file verbose df hmiss
    have hfind : (cf.associator.find? (fun p => !(decide (p.1 ∈ df.columns)))).isSome
        = true := by
      rw [List.find?_isSome]
      obtain ⟨p, hp, hnp⟩ := hmiss
      exact ⟨p, hp, by simpa using hnp⟩
    obtain ⟨p₀, hp₀⟩ := Option.isSome_iff_exists.1 hfind
    have hmem := List.mem_of_find?_eq_some hp₀
    have hprop := List.find?_some hp₀
    refine ⟨complexWrap (missingColMsg p₀.1), p₀.1, ?_, ?_, ?_, ?_, ?_⟩
    · simp [complexCmd, ComplexFragmentor.transform, hp₀]
    · exact List.mem_map_of_mem Prod.fst hmem
    · simpa using hprop
    · exact missingColMsg_contains "Error calculating complex descriptors: " p₀.1
    · simp [complexCmd, ComplexFragmentor.transform, hp₀, CmdResult.writes]

/-- Evaluation of `missing_column_errors` at concrete tables lacking the
configured structure columns (`Structure` for the single-column commands,
`solvent` for the composite). -/
theorem missing_column_errors_witness :
    ("Structure" ∉ dfNoId.columns) ∧
    ((circusCmd frag0 "in.tsv" "out.csv" "Structure" "ID" 0 3 false false dfNoId).1
      = CmdResult.err (circusWrap (missingColMsg "Structure")) ∧
     containsStr (circusWrap (missingColMsg "Structure")) "Structure" ∧
     (circusCmd frag0 "in.tsv" "out.csv" "Structure" "ID" 0 3 false false dfNoId).1.writes
       = []) ∧
    ((rdkitCmd fp0 "in.tsv" "out.csv" "Structure" "ID" "morgan" 2 2 false dfNoId).1
      = CmdResult.err (rdkitWrap (missingColMsg "Structure")) ∧
     containsStr (rdkitWrap (missingColMsg "Structure")) "Structure" ∧
     (rdkitCmd fp0 "in.tsv" "out.csv" "Structure" "ID" "morgan" 2 2 false dfNoId).1.writes
       = []) ∧
    (∃ p ∈ cfMissing.associator, p.1 ∉ dfMol.columns) ∧
    (∃ m c, (complexCmd fp0 cfMissing "cfg.json" "in.tsv" "out.csv" false dfMol).1
        = CmdResult.err m ∧
      c ∈ cfMissing.associator.map Prod.fst ∧ c ∉ dfMol.columns ∧ containsStr m c ∧
      (complexCmd fp0 cfMissing "cfg.json" "in.tsv" "out.csv" false dfMol).1.writes
        = []) :=
  ⟨by decide,
   missing_column_errors.1 frag0 "in.tsv" "out.csv" "Structure" "ID" 0 3 false false
     dfNoId (by decide),
   missing_column_errors.2.1 fp0 "in.tsv" "out.csv" "Structure" "ID" "morgan" 2 2 false
     dfNoId (by decide),
   by decide,
   missing_column_errors.2.2 fp0 cfMissing "cfg.json" "in.tsv" "out.csv" false dfMol
     (by decide)⟩

/-- C6: any error raised inside any command's orchestration body surfaces as
exactly one terminal failure whose message is that command's
operation-naming wrapper applied to the underlying error text, with no
output write performed; no retry is attempted (at most one transform call in
the descriptor commands, at most one explain call in `coloratom`); the stub
commands `optimize`, `rebuild` and `plot` raise no error at all and perform
no write, so the property holds for them vacuously. -/
theorem command_error_wrapping :
    (∀ (frag : Nat → Nat → Bool → String → List String)
        (input_file output_file smiles_column id_column : String)
        (lower upper : Nat) (on_bond verbose : Bool) (df : DF),
      (∀ m, (circusCmd frag input_file output_file smiles_column id_column
          lower upper on_bond verbose df).1 = CmdResult.err m →
        (∃ e, m = circusWrap e) ∧
        (circusCmd frag input_file output_file smiles_column id_column
          lower upper on_bond verbose df).1.writes = []) ∧
      (circusCmd frag input_file output_file smiles_column id_column
          lower upper on_bond verbose df).2.countP Ev.isTransform ≤ 1) ∧
    (∀ (fp : String → Nat → Nat)
        (input_file output_file smiles_column id_column fp_type : String)
        (nbits radius : Nat) (verbose : Bool) (df : DF),
      (∀ m, (rdkitCmd fp input_file output_file smiles_column id_column fp_type
          nbits radius verbose df).1 = CmdResult.err m →
        (∃ e, m = rdkitWrap e) ∧
        (rdkitCmd fp input_file output_file smiles_column id_column fp_type
          nbits radius verbose df).1.writes = []) ∧
      (rdkitCmd fp input_file output_file smiles_column id_column fp_type
          nbits radius verbose df).2.countP Ev.isTransform ≤ 1) ∧
    (∀ (fp : String → Nat → Nat) (cf : ComplexFragmentor)
        (config_file input_file output_file : String) (verbose : Bool) (df : DF),
      (∀ m, (complexCmd fp cf config_file input_file output_file verbose df).1
          = CmdResult.err m →
        (∃ e, m = complexWrap e) ∧
        (complexCmd fp cf config_file input_file output_file verbose df).1.writes
          = []) ∧
      (complexCmd fp cf config_file input_file output_file verbose df).2.countP
        Ev.isTransform ≤ 1) ∧
    (∀ (pickleRes : Except String Unit) (explainRes : Except String String)
        (saveRes : Except String Unit) (model_file smiles descriptor_type : String)
        (output_file : Option String) (show_flag : Bool),
      (∀ m, (coloratomCmd pickleRes explainRes saveRes model_file smiles
          descriptor_type output_file show_flag).1 = CmdResult.err m →
        (∃ e, m = colorWrap e) ∧
        (coloratomCmd pickleRes explainRes saveRes model_file smiles
          descriptor_type output_file show_flag).1.writes = []) ∧
      (coloratomCmd pickleRes explainRes saveRes model_file smiles
          descriptor_type output_file show_flag).2.countP Ev.isExplain ≤ 1) ∧
    (∀ (config_file : String) (verbose : Bool) (argv0 : List String),
      (optimizeCmd config_file verbose argv0).1.isOk = true ∧
      (optimizeCmd config_file verbose argv0).1.writes = []) ∧
    (∀ (input_dir output_dir : String) (verbose : Bool) (argv0 : List String),
      (rebuildCmd input_dir output_dir verbose argv0).1.isOk = true ∧
      (rebuildCmd input_dir output_dir verbose argv0).1.writes = []) ∧
    (∀ (input_file plot_type : String)
        (x_column y_column output_file : Option String) (show_flag : Bool)
        (argv0 : List String),
      (plotCmd input_file plot_type x_column y_column output_file show_flag
          argv0).1.isOk = true ∧
      (plotCmd input_file plot_type x_column y_column output_file show_flag
          argv0).1.writes = []) ∧
    (∀ (descriptor_type output_file : String) (m : String),
      initCmd descriptor_type output_file = CmdResult.err m →
      (∃ e, m = initWrap e) ∧ (initCmd descriptor_type output_file).writes = []) ∧
    (∀ (sysinfo : Except String (List String)) (m : String),
      infoCmd sysinfo = CmdResult.err m →
      (∃ e, m = infoWrap e) ∧ (infoCmd sysinfo).writes = []) := by
  refine ⟨?_, ?_, ?_, ?_, ?_, ?_, ?_, ?_, ?_⟩
  · intro frag input_file output_file smiles_column id_column lower upper on_bond
      verbose df
    by_cases hs : smiles_column ∈ df.columns
    · refine ⟨fun m h => ?_, ?_⟩
      · simp [circusCmd, hs, ChythonCircus.fit, ChythonCircus.transform] at h
      · simp [circusCmd, hs, ChythonCircus.fit, ChythonCircus.transform,
          List.countP_cons, Ev.isTransform]
    · refine ⟨fun m h => ?_, ?_⟩
      · simp [circusCmd, hs] at h
        exact ⟨⟨missingColMsg smiles_column, h.symm⟩,
          by simp [circusCmd, hs, CmdResult.writes]⟩
      · simp [circusCmd, hs, List.countP_cons, Ev.isTransform]
  · intro fp input_file output_file smiles_column id_column fp_type nbits radius
      verbose df
    by_cases hs : smiles_column ∈ df.columns
    · refine ⟨fun m h => ?_, ?_⟩
      · simp [rdkitCmd, hs] at h
      · simp [rdkitCmd, hs, List.countP_cons, Ev.isTransform]
    · refine ⟨fun m h => ?_, ?_⟩
      · simp [rdkitCmd, hs] at h
        exact ⟨⟨missingColMsg smiles_column, h.symm⟩,
          by simp [rdkitCmd, hs, CmdResult.writes]⟩
      · simp [rdkitCmd, hs, List.countP_cons, Ev.isTransform]
  · intro fp cf config_file input_file output_file verbose df
    cases htr : cf.transform fp df with
    | error e =>
        refine ⟨fun m h => ?_, ?_⟩
        · simp [complexCmd, htr] at h
          exact ⟨⟨e, h.symm⟩, by simp [complexCmd, htr, CmdResult.writes]⟩
        · simp [complexCmd, htr, List.countP_cons, Ev.isTransform]
    | ok d =>
        refine ⟨fun m h => ?_, ?_⟩
        · simp [complexCmd, htr] at h
        · simp [complexCmd, htr, List.countP_cons, Ev.isTransform]
  · intro pickleRes explainRes saveRes model_file smiles descriptor_type output_file
      show_flag
    refine ⟨fun m h => ?_, ?_⟩
    · cases pickleRes with
      | error e =>
          simp [coloratomCmd] at h
          exact ⟨⟨e, h.symm⟩, by simp [coloratomCmd, CmdResult.writes]⟩
      | ok u =>
          cases explainRes with
          | error e =>
              simp [coloratomCmd] at h
              exact ⟨⟨e, h.symm⟩, by simp [coloratomCmd, CmdResult.writes]⟩
          | ok fig =>
              cases output_file with
              | none => simp [coloratomCmd] at h
              | some f =>
                  cases saveRes with
                  | error e =>
                      simp [coloratomCmd] at h
                      exact ⟨⟨e, h.symm⟩, by simp [coloratomCmd, CmdResult.writes]⟩
                  | ok v => simp [coloratomCmd] at h
    · by_cases hd : descriptor_type = "circus" <;>
        cases pickleRes <;> cases explainRes <;> cases output_file <;>
        cases saveRes <;>
        simp [coloratomCmd, hd, List.countP_cons, Ev.isExplain]
  · intro config_file verbose argv0
    exact ⟨rfl, rfl⟩
  · intro input_dir output_dir verbose argv0
    exact ⟨rfl, rfl⟩
  · intro input_file plot_type x_column y_column output_file show_flag argv0
    exact ⟨rfl, rfl⟩
  · intro descriptor_type output_file m h
    by_cases t1 : descriptor_type = "circus"
    · simp [initCmd, t1] at h
    · by_cases t2 : descriptor_type = "rdkit"
      · simp [initCmd, t1, t2] at h
      · by_cases t3 : descriptor_type = "complex"
        · simp [initCmd, t1, t2, t3] at h
        · simp [initCmd, t1, t2, t3] at h
          exact ⟨⟨"name " ++ sq ++ "config" ++ sq ++ " is not defined", h.symm⟩,
            by simp [initCmd, t1, t2, t3, CmdResult.writes]⟩
  · intro sysinfo m h
    cases sysinfo with
    | ok ls => simp [infoCmd] at h
    | error e =>
        simp [infoCmd] at h
        exact ⟨⟨e, h.symm⟩, by simp [infoCmd, CmdResult.writes]⟩

/-- Evaluation of `command_error_wrapping` at concrete erroring invocations:
a `circus` run with a missing structure column, a `coloratom` run whose
model unpickling fails, an `init` run with an unknown descriptor type, and
an `info` run whose environment gathering fails. -/
theorem command_error_wrapping_witness :
    ((circusCmd frag0 "in.tsv" "out.csv" "Structure" "ID" 0 3 false false dfNoId).1
      = CmdResult.err (circusWrap (missingColMsg "Structure"))) ∧
    ((∃ e, circusWrap (missingColMsg "Structure") = circusWrap e) ∧
      (circusCmd frag0 "in.tsv" "out.csv" "Structure" "ID" 0 3 false false dfNoId).1.writes
        = []) ∧
    ((coloratomCmd (Except.error "bad pickle") (Except.ok "figure") (Except.ok ())
        "model.pkl" "CCO" "morgan" none false).1
      = CmdResult.err (colorWrap "bad pickle")) ∧
    ((∃ e, colorWrap "bad pickle" = colorWrap e) ∧
      (coloratomCmd (Except.error "bad pickle") (Except.ok "figure") (Except.ok ())
        "model.pkl" "CCO" "morgan" none false).1.writes = []) ∧
    (initCmd "bogus" "cfg.json"
      = CmdResult.err (initWrap ("name " ++ sq ++ "config" ++ sq
          ++ " is not defined"))) ∧
    ((∃ e, initWrap ("name " ++ sq ++ "config" ++ sq ++ " is not defined")
        = initWrap e) ∧
      (initCmd "bogus" "cfg.json").writes = []) ∧
    (infoCmd (Except.error "boom") = CmdResult.err (infoWrap "boom")) ∧
    ((∃ e, infoWrap "boom" = infoWrap e) ∧
      (infoCmd (Except.error "boom")).writes = []) :=
  ⟨by decide,
   (command_error_wrapping.1 frag0 "in.tsv" "out.csv" "Structure" "ID" 0 3 false false
      dfNoId).1 (circusWrap (missingColMsg "Structure")) (by decide),
   by decide,
   (command_error_wrapping.2.2.2.1 (Except.error "bad pickle") (Except.ok "figure")
      (Except.ok ()) "model.pkl" "CCO" "morgan" none false).1
     (colorWrap "bad pickle") (by decide),
   by decide,
   command_error_wrapping.2.2.2.2.2.2.2.1 "bogus" "cfg.json"
     (initWrap ("name " ++ sq ++ "config" ++ sq ++ " is not defined")) (by decide),
   by decide,
   command_error_wrapping.2.2.2.2.2.2.2.2 (Except.error "boom") (infoWrap "boom")
     (by decide)⟩

theorem ComplexFragmentor.transform_nr (cf : ComplexFragmentor)
    (fp : String → Nat → Nat) (df : DF) (d : DF)
    (h : cf.transform fp df = Except.ok d) : d.nr = df.nr := by
  unfold ComplexFragmentor.transform at h
  cases hf : cf.associator.find? (fun p => !(decide (p.1 ∈ df.columns))) with
  | some p => rw [hf] at h; simp at h
  | none =>
      rw [hf] at h
      cases hm : cf.associator.mapM
          (fun p => (p.2.run fp (df.col p.1)).map (fun d => d.tagCols p.1)) with
      | error e => rw [hm] at h; simp [Bind.bind, Except.bind] at h
      | ok parts =>
          rw [hm] at h
          simp only [Bind.bind, Except.bind, Except.ok.injEq] at h
          rw [← h]

/-- C3 (amended): every successful `circus` and `rdkit` run writes a
comma-separated table with one row per input structure whose first column is
`ID`; a successful `complex` run also writes a comma-separated table with one
row per input row, but it writes the transform result directly — the
source-column-tagged feature table with no `ID` column inserted. -/
theorem descriptor_output_shape_amended :
    (∀ (frag : Nat → Nat → Bool → String → List String)
        (input_file output_file smiles_column id_column : String)
        (lower upper : Nat) (on_bond verbose : Bool) (df : DF),
      df.wf = true → smiles_column ∈ df.columns →
      (circusCmd frag input_file output_file smiles_column id_column
          lower upper on_bond verbose df).1.isOk = true ∧
      (circusCmd frag input_file output_file smiles_column id_column
          lower upper on_bond verbose df).1.writes
        = [(output_file,
            (circusOutDF frag smiles_column id_column lower upper on_bond df).toCsv)] ∧
      (circusOutDF frag smiles_column id_column lower upper on_bond df).columns.head?
        = some "ID" ∧
      (circusOutDF frag smiles_column id_column lower upper on_bond df).nr = df.nr) ∧
    (∀ (fp : String → Nat → Nat)
        (input_file output_file smiles_column id_column fp_type : String)
        (nbits radius : Nat) (verbose : Bool) (df : DF),
      df.wf = true → smiles_column ∈ df.columns →
      (rdkitCmd fp input_file output_file smiles_column id_column fp_type
          nbits radius verbose df).1.isOk = true ∧
      (rdkitCmd fp input_file output_file smiles_column id_column fp_type
          nbits radius verbose df).1.writes
        = [(output_file,
            (rdkitOutDF fp smiles_column id_column fp_type nbits radius df).toCsv)] ∧
      (rdkitOutDF fp smiles_column id_column fp_type nbits radius df).columns.head?
        = some "ID" ∧
      (rdkitOutDF fp smiles_column id_column fp_type nbits radius df).nr = df.nr) ∧
    (∀ (fp : String → Nat → Nat) (cf : ComplexFragmentor)
        (config_file input_file output_file : String) (verbose : Bool) (df : DF)
        (d : DF),
      cf.transform fp df = Except.ok d →
      (complexCmd fp cf config_file input_file output_file verbose df).1.isOk = true ∧
      (complexCmd fp cf config_file input_file output_file verbose df).1.writes
        = [(output_file, d.toCsv)] ∧
      d.nr = df.nr) := by
  refine ⟨?_, ?_, ?_⟩
  · intro frag input_file output_file smiles_column id_column lower upper on_bond
      verbose df hwf hs
    refine ⟨?_, ?_, rfl, ?_⟩
    · simp [circusCmd, hs, ChythonCircus.fit, ChythonCircus.transform, CmdResult.isOk]
    · simp [circusCmd, hs, ChythonCircus.fit, ChythonCircus.transform, CmdResult.writes,
        circusOutDF, circusFeatures]
    · simp only [circusOutDF, circusFeatures, DF.insertID]
      exact DF.col_length df smiles_column hwf hs
  · intro fp input_file output_file smiles_column id_column fp_type nbits radius
      verbose df hwf hs
    refine ⟨?_, ?_, rfl, ?_⟩
    · simp [rdkitCmd, hs, CmdResult.isOk]
    · simp [rdkitCmd, hs, CmdResult.writes, rdkitOutDF]
    · simp only [rdkitOutDF, Fingerprinter.transform, DF.insertID]
      exact DF.col_length df smiles_column hwf hs
  · intro fp cf config_file input_file output_file verbose df d htr
    exact ⟨by simp [complexCmd, htr, CmdResult.isOk],
      by simp [complexCmd, htr, CmdResult.writes],
      ComplexFragmentor.transform_nr cf fp df d htr⟩

/-- The claim of C3 fails at a concrete successful `complex` run: the table
written is the composite transform result, whose first column is the tagged
feature name `molecules__0`, not `ID`. -/
theorem complex_output_no_id_counterexample :
    (complexCmd fp0 cfW "cfg.json" "in.tsv" "out.csv" false dfMol).1.isOk = true ∧
    (complexCmd fp0 cfW "cfg.json" "in.tsv" "out.csv" false dfMol).1.writes
      = [("out.csv", (DF.mk [("molecules__0", ["0"])] 1).toCsv)] ∧
    (DF.mk [("molecules__0", ["0"])] 1).columns.head? = some "molecules__0" ∧
    "molecules__0" ≠ "ID" := by decide

/-- Evaluation of `descriptor_output_shape_amended` at concrete tables. -/
theorem descriptor_output_shape_witness :
    dfW.wf = true ∧ "SMILES" ∈ dfW.columns ∧
    ((circusCmd frag0 "in.tsv" "out.csv" "SMILES" "ID" 0 3 false false dfW).1.isOk
        = true ∧
      (circusCmd frag0 "in.tsv" "out.csv" "SMILES" "ID" 0 3 false false dfW).1.writes
        = [("out.csv", (circusOutDF frag0 "SMILES" "ID" 0 3 false dfW).toCsv)] ∧
      (circusOutDF frag0 "SMILES" "ID" 0 3 false dfW).columns.head? = some "ID" ∧
      (circusOutDF frag0 "SMILES" "ID" 0 3 false dfW).nr = dfW.nr) ∧
    cfW.transform fp0 dfMol = Except.ok (DF.mk [("molecules__0", ["0"])] 1) ∧
    ((complexCmd fp0 cfW "cfg.json" "in.tsv" "out.csv" false dfMol).1.isOk = true ∧
      (complexCmd fp0 cfW "cfg.json" "in.tsv" "out.csv" false dfMol).1.writes
        = [("out.csv", (DF.mk [("molecules__0", ["0"])] 1).toCsv)] ∧
      (DF.mk [("molecules__0", ["0"])] 1).nr = dfMol.nr) :=
  ⟨by decide, by decide,
   descriptor_output_shape_amended.1 frag0 "in.tsv" "out.csv" "SMILES" "ID" 0 3 false
     false dfW (by decide) (by decide),
   by rfl,
   descriptor_output_shape_amended.2.2 fp0 cfW "cfg.json" "in.tsv" "out.csv" false
     dfMol (DF.mk [("molecules__0", ["0"])] 1) (by rfl)⟩

/-- C4 (amended): the `circus` command performs load → fit → transform →
write in strict order with the write last; the `rdkit` and `complex`
commands perform load → transform → write — no fit is invoked on their
transformers (fingerprint fit is a spec-level no-op, and `complex` calls
`transform` directly). -/
theorem pipeline_order_amended :
    (∀ (frag : Nat → Nat → Bool → String → List String)
        (input_file output_file smiles_column id_column : String)
        (lower upper : Nat) (on_bond verbose : Bool) (df : DF),
      smiles_column ∈ df.columns →
      (circusCmd frag input_file output_file smiles_column id_column
          lower upper on_bond verbose df).2
        = [Ev.load, Ev.fit (df.col smiles_column), Ev.transform, Ev.write]) ∧
    (∀ (fp : String → Nat → Nat)
        (input_file output_file smiles_column id_column fp_type : String)
        (nbits radius : Nat) (verbose : Bool) (df : DF),
      smiles_column ∈ df.columns →
      (rdkitCmd fp input_file output_file smiles_column id_column fp_type
          nbits radius verbose df).2 = [Ev.load, Ev.transform, Ev.write]) ∧
    (∀ (fp : String → Nat → Nat) (cf : ComplexFragmentor)
        (config_file input_file output_file : String) (verbose : Bool) (df : DF)
        (d : DF),
      cf.transform fp df = Except.ok d →
      (complexCmd fp cf config_file input_file output_file verbose df).2
        = [Ev.load, Ev.transform, Ev.write]) := by
  refine ⟨?_, ?_, ?_⟩
  · intro frag input_file output_file smiles_column id_column lower upper on_bond
      verbose df hs
    simp [circusCmd, hs, ChythonCircus.fit, ChythonCircus.transform]
  · intro fp input_file output_file smiles_column id_column fp_type nbits radius
      verbose df hs
    simp [rdkitCmd, hs]
  · intro fp cf config_file input_file output_file verbose df d htr
    simp [complexCmd, htr]

/-- The claim of C4 fails at a concrete successful `rdkit` run: the command
completes and calls transform, yet its event trace contains no fit event —
the transformer's fit is never invoked. -/
theorem pipeline_order_counterexample :
    (rdkitCmd fp0 "in.tsv" "out.csv" "SMILES" "ID" "morgan" 2 2 false dfW).1.isOk
      = true ∧
    (rdkitCmd fp0 "in.tsv" "out.csv" "SMILES" "ID" "morgan" 2 2 false dfW).2
      = [Ev.load, Ev.transform, Ev.write] ∧
    ((rdkitCmd fp0 "in.tsv" "out.csv" "SMILES" "ID" "morgan" 2 2 false dfW).2.all
      (fun e => !(e.isFit))) = true := by decide

/-- Evaluation of `pipeline_order_amended` at concrete tables. -/
theorem pipeline_order_witness :
    "SMILES" ∈ dfW.columns ∧
    (circusCmd frag0 "in.tsv" "out.csv" "SMILES" "ID" 0 3 false false dfW).2
      = [Ev.load, Ev.fit (dfW.col "SMILES"), Ev.transform, Ev.write] ∧
    (rdkitCmd fp0 "in.tsv" "out.csv" "SMILES" "ID" "morgan" 2 2 false dfW).2
      = [Ev.load, Ev.transform, Ev.write] ∧
    cfW.transform fp0 dfMol = Except.ok (DF.mk [("molecules__0", ["0"])] 1) ∧
    (complexCmd fp0 cfW "cfg.json" "in.tsv" "out.csv" false dfMol).2
      = [Ev.load, Ev.transform, Ev.write] :=
  ⟨by decide,
   pipeline_order_amended.1 frag0 "in.tsv" "out.csv" "SMILES" "ID" 0 3 false false dfW
     (by decide),
   pipeline_order_amended.2.1 fp0 "in.tsv" "out.csv" "SMILES" "ID" "morgan" 2 2 false
     dfW (by decide),
   by rfl,
   pipeline_order_amended.2.2 fp0 cfW "cfg.json" "in.tsv" "out.csv" false dfMol
     (DF.mk [("molecules__0", ["0"])] 1) (by rfl)⟩

/-- C7 (amended): in `analysis coloratom` the descriptor transformer is fit
on the single-element sequence of the given SMILES before the explain call
only for descriptor type `circus`; for `morgan` and `rdkfp` the transformer
is constructed but no fit is invoked before the explain call (the spec-level
explain fits internally). -/
theorem coloratom_fit_amended :
    (∀ (explainRes : Except String String) (saveRes : Except String Unit)
        (model_file smiles : String) (output_file : Option String)
        (show_flag : Bool),
      (coloratomCmd (Except.ok ()) explainRes saveRes model_file smiles "circus"
          output_file show_flag).2.take 3
        = [Ev.load, Ev.fit [smiles], Ev.explain]) ∧
    (∀ (pickleRes : Except String Unit) (explainRes : Except String String)
        (saveRes : Except String Unit)
        (model_file smiles descriptor_type : String) (output_file : Option String)
        (show_flag : Bool),
      descriptor_type ≠ "circus" →
      ((coloratomCmd pickleRes explainRes saveRes model_file smiles descriptor_type
          output_file show_flag).2.all (fun e => !(e.isFit))) = true ∧
      (pickleRes = Except.ok () →
        Ev.explain ∈ (coloratomCmd pickleRes explainRes saveRes model_file smiles
          descriptor_type output_file show_flag).2)) := by
  constructor
  · intro explainRes saveRes model_file smiles output_file show_flag
    cases explainRes <;> cases output_file <;> cases saveRes <;> simp [coloratomCmd]
  · intro pickleRes explainRes saveRes model_file smiles descriptor_type output_file
      show_flag h
    cases pickleRes with
    | error e =>
        refine ⟨by simp [coloratomCmd], fun hp => ?_⟩
        simp at hp
    | ok u =>
        refine ⟨?_, fun hp => ?_⟩
        · cases explainRes <;> cases output_file <;> cases saveRes <;>
            simp [coloratomCmd, h, Ev.isFit]
        · cases explainRes <;> cases output_file <;> cases saveRes <;>
            simp [coloratomCmd, h]

/-- The claim of C7 fails at a concrete `coloratom` run with descriptor type
`morgan`: the run completes and makes the explain call, yet no fit on the
single-element SMILES sequence (nor any fit) precedes it. -/
theorem coloratom_fit_counterexample :
    (coloratomCmd (Except.ok ()) (Except.ok "figure") (Except.ok ()) "model.pkl"
      "CCO" "morgan" none false).1.isOk = true ∧
    (coloratomCmd (Except.ok ()) (Except.ok "figure") (Except.ok ()) "model.pkl"
      "CCO" "morgan" none false).2 = [Ev.load, Ev.explain] ∧
    ((coloratomCmd (Except.ok ()) (Except.ok "figure") (Except.ok ()) "model.pkl"
      "CCO" "morgan" none false).2.all (fun e => !(e.isFit))) = true := by decide

/-- Evaluation of `coloratom_fit_amended` at a concrete non-circus run whose
collaborators all succeed. -/
theorem coloratom_fit_witness :
    ("morgan" ≠ "circus") ∧
    (((coloratomCmd (Except.ok ()) (Except.ok "figure") (Except.ok ()) "model.pkl"
        "CCO" "morgan" none false).2.all (fun e => !(e.isFit))) = true ∧
      ((Except.ok () : Except String Unit) = Except.ok () →
        Ev.explain ∈ (coloratomCmd (Except.ok ()) (Except.ok "figure") (Except.ok ())
          "model.pkl" "CCO" "morgan" none false).2)) :=
  ⟨by decide,
   coloratom_fit_amended.2 (Except.ok ()) (Except.ok "figure") (Except.ok ())
     "model.pkl" "CCO" "morgan" none false (by decide)⟩

end DOPtools
